import Mathlib

/-
Verification development for the blueproximity-v2 repository.

The repository contains three Python scripts:
  * blueproximity-v2.py      (class BluetoothProximityMonitor)
  * custom-blueproximity.py  (class BluetoothProximityMonitor, near duplicate)
  * main.py                  (a BLE-scanner based variant)

The shallow embedding below models the mutable state of the monitor
(dictionaries device_is_present, lock_timers, unlock_timers, the flag
screen_locked_by_script, and the running flag) as an explicit record,
the external D-Bus screensaver as an environment record, and the
methods of the class as pure state-transition functions.  Timer
bookkeeping is modelled as sets of device names with a pending timer;
timer firings and scan ticks are events of a step function, giving an
interleaved (serialized) semantics of the thread-based timers.
-/

/-- Configuration record mirroring the CONFIG dictionary of
blueproximity-v2.py (lines 32-49) and custom-blueproximity.py
(lines 30-46): a device name to MAC address mapping plus the numeric
tuning values. -/
structure Config where
  devices : List (String × String)
  unlock_distance : Int
  lock_distance : Int
  scan_interval : Nat
  lock_timeout : Nat
  unlock_timeout : Nat
deriving DecidableEq

/-- The CONFIG literal of blueproximity-v2.py, lines 32-49. -/
def CONFIG_v2 : Config :=
  { devices := [("iPhone", "78:44:8B:CE:H1:DI"), ("ULT-WEAR", "00:A4:0ZC:EC:2B:6B")]
  , unlock_distance := -10
  , lock_distance := -15
  , scan_interval := 5
  , lock_timeout := 15
  , unlock_timeout := 5 }

/-- The CONFIG literal of custom-blueproximity.py, lines 30-46. -/
def CONFIG_custom : Config :=
  { devices := [("iPhone", "78:02:8B:CE:F6:DF")]
  , unlock_distance := -20
  , lock_distance := -30
  , scan_interval := 5
  , lock_timeout := 15
  , unlock_timeout := 5 }

/-- Mutable state of a BluetoothProximityMonitor instance
(constructor, blueproximity-v2.py lines 54-60).  The Python timer
dictionaries are modelled by the sets (lists) of device names that
currently have a pending (armed, not yet fired, not cancelled) timer
of each direction; a cancelled or fired threading.Timer is no longer
pending even though the Python dict may retain the object. -/
structure MonitorState where
  device_is_present : List (String × Bool)
  lock_pending : List String
  unlock_pending : List String
  screen_locked_by_script : Bool
  running : Bool
deriving DecidableEq

/-- State right after the constructor runs (blueproximity-v2.py
lines 54-60): empty dictionaries, flag false, running true. -/
def init_state : MonitorState :=
  { device_is_present := []
  , lock_pending := []
  , unlock_pending := []
  , screen_locked_by_script := false
  , running := true }

/-- External D-Bus screensaver collaborator at a given instant:
the outcome of a GetActive query (none when the query raises, which
is_screen_locked maps to false), and whether a Lock or SetActive call
would succeed rather than raise. -/
structure Env where
  getActive : Option Bool
  lockOk : Bool
  unlockOk : Bool
deriving DecidableEq

/-- Python dictionary assignment d[k] = v on an association list. -/
def setAssoc (k : String) (v : Bool) : List (String × Bool) → List (String × Bool)
  | [] => [(k, v)]
  | (k', w) :: rest => if k' = k then (k, v) :: rest else (k', w) :: setAssoc k v rest

/-- Translation of any(self.device_is_present.values())
(blueproximity-v2.py lines 182 and 194). -/
def anyPresent (st : MonitorState) : Bool :=
  st.device_is_present.any (fun p => p.2)

/-- Method is_screen_locked, blueproximity-v2.py lines 143-149 and
custom-blueproximity.py lines 123-129: bool(GetActive()), and false
when the D-Bus query raises. -/
def is_screen_locked (env : Env) : Bool :=
  env.getActive.getD false

/-- Method lock_screen, blueproximity-v2.py lines 121-130 and
custom-blueproximity.py lines 101-110.  Returns the new state and
whether the D-Bus Lock call was attempted; when the call raises
(env.lockOk = false) the exception is caught and the flag
screen_locked_by_script is left unchanged. -/
def lock_screen (env : Env) (st : MonitorState) : MonitorState × Bool :=
  if is_screen_locked env then (st, false)
  else if env.lockOk then ({ st with screen_locked_by_script := true }, true)
  else (st, true)

/-- Method unlock_screen, blueproximity-v2.py lines 132-141 and
custom-blueproximity.py lines 112-121.  Returns the new state and
whether the D-Bus SetActive(False) call was attempted; the early
return fires unless the screen is reported locked and was locked by
this script, and a raising call leaves the flag unchanged. -/
def unlock_screen (env : Env) (st : MonitorState) : MonitorState × Bool :=
  if !(is_screen_locked env) || !st.screen_locked_by_script then (st, false)
  else if env.unlockOk then ({ st with screen_locked_by_script := false }, true)
  else (st, true)

/-- Timer direction, the timer_type argument of cancel_timer
(blueproximity-v2.py line 202). -/
inductive TimerType where
  | lock
  | unlock
deriving DecidableEq

/-- Method cancel_timer, blueproximity-v2.py lines 202-206 and
custom-blueproximity.py lines 180-184: the named timer for the device,
if pending, stops being pending. -/
def cancel_timer (tt : TimerType) (d : String) (st : MonitorState) : MonitorState :=
  match tt with
  | .lock => { st with lock_pending := st.lock_pending.filter (fun x => x != d) }
  | .unlock => { st with unlock_pending := st.unlock_pending.filter (fun x => x != d) }

/-- Method start_lock_timer, blueproximity-v2.py lines 179-188 and
custom-blueproximity.py lines 157-166: cancel any old lock timer for
the device, then arm a fresh one. -/
def start_lock_timer (d : String) (st : MonitorState) : MonitorState :=
  let st1 := cancel_timer .lock d st
  { st1 with lock_pending := d :: st1.lock_pending }

/-- Method start_unlock_timer, blueproximity-v2.py lines 190-200 and
custom-blueproximity.py lines 168-178. -/
def start_unlock_timer (d : String) (st : MonitorState) : MonitorState :=
  let st1 := cancel_timer .unlock d st
  { st1 with unlock_pending := d :: st1.unlock_pending }

/-- Closure lock_action inside start_lock_timer (blueproximity-v2.py
lines 181-184): when the timer fires, lock the screen only if no
tracked device is flagged present.  The boolean records whether
lock_screen was invoked. -/
def lock_action (env : Env) (st : MonitorState) : MonitorState × Bool :=
  if anyPresent st then (st, false)
  else ((lock_screen env st).1, true)

/-- Closure unlock_action inside start_unlock_timer
(blueproximity-v2.py lines 192-196): when the timer fires, attempt an
unlock only if at least one device is flagged present.  The boolean
records whether the D-Bus SetActive(False) call was attempted, that
is, whether unlock_screen got past its guard. -/
def unlock_action (env : Env) (st : MonitorState) : MonitorState × Bool :=
  if anyPresent st then unlock_screen env st
  else (st, false)

/-- Method validate_configuration, blueproximity-v2.py lines 208-212
and custom-blueproximity.py lines 186-190: reject when the device
mapping is empty or every address is one of the two placeholder
strings.  No other field of the configuration is examined. -/
def validate_configuration (cfg : Config) : Bool :=
  if cfg.devices.isEmpty
      || cfg.devices.all
          (fun p => p.2 = "XX:XX:XX:XX:XX:XX" || p.2 = "YY:YY:YY:YY:YY:YY") then
    false
  else
    true

/-- Outcome of the subprocess.run call inside get_device_rssi
(blueproximity-v2.py lines 109-112): either the call raised (timeout,
missing binary, any OSError) or it completed with a return code and a
standard output text. -/
inductive RunOutcome where
  | raised
  | completed (returncode : Int) (stdout : String)
deriving DecidableEq

/-- Python int(s) on an already stripped string: parse an optional
minus sign and digits, none when the text is not an integer literal
(the ValueError path, caught by the surrounding except). -/
def pyInt (s : String) : Option Int :=
  s.toInt?

/-- Python substring test (marker in stdout), modelled by splitting on
the marker: the marker occurs in the text exactly when the split has
at least two pieces. -/
def containsMarker (marker s : String) : Bool :=
  (s.splitOn marker).length ≥ 2

/-- Method get_device_rssi, blueproximity-v2.py lines 107-119 and
custom-blueproximity.py lines 87-99 (identical in both files): run
hcitool, and when it exits 0 with the RSSI marker in its output, parse
the integer after the last colon; every failure (raise, nonzero exit,
missing marker, unparsable integer) yields none. -/
def get_device_rssi (o : RunOutcome) : Option Int :=
  match o with
  | .raised => none
  | .completed rc out =>
    if rc = 0 && containsMarker "RSSI return value:" out then
      pyInt ((out.splitOn ":").getLastD "").trim
    else
      none

namespace BlueProximityV2

/-- Method handle_device_proximity of blueproximity-v2.py, lines
151-177, with the RSSI sample (the result of get_device_rssi) passed
in.  A missing sample returns immediately (lines 154-156); otherwise
the instantaneous presence flag is rssi >= lock_distance (line 158),
the previous flag defaults to true when the device is unknown
(line 161), a flag change cancels the opposite timer and arms the
matching one (lines 163-173), and the dictionary entry is updated
(line 176). -/
def handle_device_proximity (cfg : Config) (d : String) (rssi : Option Int)
    (st : MonitorState) : MonitorState :=
  match rssi with
  | none => st
  | some r =>
    let is_currently_present : Bool := decide (r ≥ cfg.lock_distance)
    let last_known_state : Bool := (st.device_is_present.lookup d).getD true
    let st1 :=
      if is_currently_present ≠ last_known_state then
        if is_currently_present then start_unlock_timer d (cancel_timer .lock d st)
        else start_lock_timer d (cancel_timer .unlock d st)
      else st
    { st1 with device_is_present := setAssoc d is_currently_present st1.device_is_present }

/-- Events of the interleaved semantics of blueproximity-v2.py: one
scan-loop iteration over a list of devices with their sampled RSSI
values (run, lines 222-228), the asynchronous firing of a pending
timer (threading.Timer callbacks), and the shutdown signal handler
(signal_handler, lines 99-105). -/
inductive Event where
  | tick (samples : List (String × Option Int))
  | fire_lock_timer (d : String)
  | fire_unlock_timer (d : String)
  | shutdown
deriving DecidableEq

/-- One atomic event of the monitor.  A tick scans the devices only
while running; a timer firing runs its action only if that timer is
still pending (a cancelled threading.Timer never runs) and consumes
the pending timer; the shutdown handler clears the running flag and
cancels every pending timer (signal_handler lines 101-104). -/
def step (cfg : Config) (env : Env) (e : Event) (st : MonitorState) : MonitorState :=
  match e with
  | .tick samples =>
    if st.running then
      samples.foldl (fun s p => handle_device_proximity cfg p.1 p.2 s) st
    else st
  | .fire_lock_timer d =>
    if st.lock_pending.contains d then
      (lock_action env { st with lock_pending := st.lock_pending.filter (fun x => x != d) }).1
    else st
  | .fire_unlock_timer d =>
    if st.unlock_pending.contains d then
      (unlock_action env { st with unlock_pending := st.unlock_pending.filter (fun x => x != d) }).1
    else st
  | .shutdown =>
    { st with running := false, lock_pending := [], unlock_pending := [] }

/-- Run a list of events in order. -/
def runEvents (cfg : Config) (env : Env) : List Event → MonitorState → MonitorState
  | [], st => st
  | e :: es, st => runEvents cfg env es (step cfg env e st)

/-- Observe a sequence of obtained RSSI samples for one device, in
order (repeated calls of handle_device_proximity with a some sample). -/
def observeSeq (cfg : Config) (d : String) (rs : List Int) (st : MonitorState) : MonitorState :=
  rs.foldl (fun s r => handle_device_proximity cfg d (some r) s) st

/-- Recorded presence flag of a device, with the default the code uses
when the device has no entry yet (blueproximity-v2.py line 161). -/
def recordedFlag (st : MonitorState) (d : String) : Bool :=
  (st.device_is_present.lookup d).getD true

/-- Whether method run enters the scan loop: run returns before the
loop exactly when validate_configuration is false (blueproximity-v2.py
lines 214-216). -/
def run_enters_scan_loop (cfg : Config) : Bool :=
  validate_configuration cfg

/-- Ways the process terminates that the claims mention. -/
inductive ExitReason where
  | config_invalid
  | signal_received
deriving DecidableEq

/-- Modelled process exit code of blueproximity-v2.py.  When
validate_configuration fails, run returns normally (line 216) and the
script main block finishes, so the interpreter exits with code 0; the
signal handler ends in sys.exit(0) (line 105), also code 0. -/
def script_exit_code : ExitReason → Nat
  | .config_invalid => 0
  | .signal_received => 0

end BlueProximityV2

namespace CustomBlueProximity

/-- Method handle_device_proximity of custom-blueproximity.py, lines
131-155.  Unlike the other variant there is no early return on a
missing sample: the flag is rssi is not None and rssi >= lock_distance
(line 136), so a missing reading counts as absent; the previous flag
defaults to the current one when the device is unknown (line 139). -/
def handle_device_proximity (cfg : Config) (d : String) (rssi : Option Int)
    (st : MonitorState) : MonitorState :=
  let is_currently_present : Bool :=
    match rssi with
    | none => false
    | some r => decide (r ≥ cfg.lock_distance)
  let last_known_state : Bool := (st.device_is_present.lookup d).getD is_currently_present
  let st1 :=
    if is_currently_present ≠ last_known_state then
      if is_currently_present then start_unlock_timer d (cancel_timer .lock d st)
      else start_lock_timer d (cancel_timer .unlock d st)
    else st
  { st1 with device_is_present := setAssoc d is_currently_present st1.device_is_present }

/-- Observe a sequence of obtained RSSI samples for one device with
the custom-variant tracker, in order (repeated calls of its
handle_device_proximity with a some sample). -/
def observeSeq (cfg : Config) (d : String) (rs : List Int) (st : MonitorState) : MonitorState :=
  rs.foldl (fun s r => handle_device_proximity cfg d (some r) s) st

end CustomBlueProximity

namespace MainPy

/-- Constant LOCK_THRESHOLD of main.py, line 16.  It is printed at
startup (line 89) but never used in any decision. -/
def LOCK_THRESHOLD : Int := -70

/-- Constant UNLOCK_THRESHOLD of main.py, line 17. -/
def UNLOCK_THRESHOLD : Int := -60

/-- Decision taken by detection_callback of main.py (lines 68-78) on
a sample for the tracked device: unlock_screen is called exactly when
the advertised RSSI is strictly above UNLOCK_THRESHOLD and the screen
is believed or reported locked (lines 76-78). -/
def detection_attempts_unlock (rssi : Int) (is_locked screensaver_active : Bool) : Bool :=
  decide (rssi > UNLOCK_THRESHOLD) && (is_locked || screensaver_active)

end MainPy

/-- Looking up a key right after the dictionary assignment of that key
returns the assigned value. -/
theorem lookup_setAssoc (k : String) (v : Bool) (l : List (String × Bool)) :
    (setAssoc k v l).lookup k = some v := by
  induction l with
  | nil => simp [setAssoc, List.lookup]
  | cons p rest ih =>
    obtain ⟨k', w⟩ := p
    by_cases h : k' = k
    · subst h
      simp [setAssoc, List.lookup]
    · have hb : (k == k') = false := by
        simp [beq_iff_eq]
        exact Ne.symm h
      simp [setAssoc, h, List.lookup, hb, ih]

/-- The lock_screen method only touches the screen_locked_by_script
flag: the timer bookkeeping and the presence dictionary are unchanged. -/
theorem lock_screen_preserves_rest (env : Env) (st : MonitorState) :
    (lock_screen env st).1.lock_pending = st.lock_pending
    ∧ (lock_screen env st).1.unlock_pending = st.unlock_pending
    ∧ (lock_screen env st).1.device_is_present = st.device_is_present
    ∧ (lock_screen env st).1.running = st.running := by
  by_cases h1 : is_screen_locked env <;> by_cases h2 : env.lockOk <;>
    simp [lock_screen, h1, h2]

/-- The unlock_screen method only touches the screen_locked_by_script
flag. -/
theorem unlock_screen_preserves_rest (env : Env) (st : MonitorState) :
    (unlock_screen env st).1.lock_pending = st.lock_pending
    ∧ (unlock_screen env st).1.unlock_pending = st.unlock_pending
    ∧ (unlock_screen env st).1.device_is_present = st.device_is_present
    ∧ (unlock_screen env st).1.running = st.running := by
  by_cases h1 : is_screen_locked env <;> by_cases h2 : st.screen_locked_by_script <;>
    by_cases h3 : env.unlockOk <;> simp [unlock_screen, h1, h2, h3]

/-- A timer action (lock_action or unlock_action) never changes the
timer bookkeeping. -/
theorem lock_action_preserves_pending (env : Env) (st : MonitorState) :
    (lock_action env st).1.lock_pending = st.lock_pending
    ∧ (lock_action env st).1.unlock_pending = st.unlock_pending := by
  by_cases h : anyPresent st
  · simp [lock_action, h]
  · simp [lock_action, h, (lock_screen_preserves_rest env st).1,
      (lock_screen_preserves_rest env st).2.1]

/-- The unlock_action closure never changes the timer bookkeeping. -/
theorem unlock_action_preserves_pending (env : Env) (st : MonitorState) :
    (unlock_action env st).1.lock_pending = st.lock_pending
    ∧ (unlock_action env st).1.unlock_pending = st.unlock_pending := by
  by_cases h : anyPresent st
  · simp [unlock_action, h, (unlock_screen_preserves_rest env st).1,
      (unlock_screen_preserves_rest env st).2.1]
  · simp [unlock_action, h]

/-- Claimed per-device timer invariant: no device has both a pending
lock timer and a pending unlock timer. -/
def TimerInv (st : MonitorState) : Prop :=
  ∀ x : String, x ∈ st.lock_pending → x ∉ st.unlock_pending

/-- The initial state trivially satisfies the timer invariant. -/
theorem timerInv_init : TimerInv init_state := by
  intro x hx
  simp [init_state] at hx

/-- Cancelling the lock timer and arming the unlock timer (the
came-back branch of handle_device_proximity) preserves the invariant. -/
theorem timerInv_came_back (d : String) (st : MonitorState) (h : TimerInv st) :
    TimerInv (start_unlock_timer d (cancel_timer .lock d st)) := by
  intro x hx hy
  simp [start_unlock_timer, cancel_timer, List.mem_filter, bne_iff_ne] at hx hy
  rcases hy with rfl | ⟨hy1, _⟩
  · exact hx.2 rfl
  · exact h x hx.1 hy1

/-- Cancelling the unlock timer and arming the lock timer (the left
branch of handle_device_proximity) preserves the invariant. -/
theorem timerInv_left (d : String) (st : MonitorState) (h : TimerInv st) :
    TimerInv (start_lock_timer d (cancel_timer .unlock d st)) := by
  intro x hx hy
  simp [start_lock_timer, cancel_timer, List.mem_filter, bne_iff_ne] at hx hy
  rcases hx with rfl | ⟨hx1, hx2⟩
  · exact hy.2 rfl
  · exact h x hx1 hy.1

/-- The lock-timer bookkeeping of a handle_device_proximity call on an
obtained sample, written out by cases (definitional). -/
theorem handle_lock_pending (cfg : Config) (d : String) (r : Int) (st : MonitorState) :
    (BlueProximityV2.handle_device_proximity cfg d (some r) st).lock_pending
      = (if decide (r ≥ cfg.lock_distance) ≠ (st.device_is_present.lookup d).getD true then
           if decide (r ≥ cfg.lock_distance) then start_unlock_timer d (cancel_timer .lock d st)
           else start_lock_timer d (cancel_timer .unlock d st)
         else st).lock_pending := rfl

/-- The unlock-timer bookkeeping of a handle_device_proximity call on
an obtained sample, written out by cases (definitional). -/
theorem handle_unlock_pending (cfg : Config) (d : String) (r : Int) (st : MonitorState) :
    (BlueProximityV2.handle_device_proximity cfg d (some r) st).unlock_pending
      = (if decide (r ≥ cfg.lock_distance) ≠ (st.device_is_present.lookup d).getD true then
           if decide (r ≥ cfg.lock_distance) then start_unlock_timer d (cancel_timer .lock d st)
           else start_lock_timer d (cancel_timer .unlock d st)
         else st).unlock_pending := rfl

/-- One observe step preserves the per-device timer invariant. -/
theorem timerInv_handle (cfg : Config) (d : String) (s : Option Int) (st : MonitorState)
    (h : TimerInv st) : TimerInv (BlueProximityV2.handle_device_proximity cfg d s st) := by
  cases s with
  | none => exact h
  | some r =>
    intro x hx hy
    rw [handle_lock_pending] at hx
    rw [handle_unlock_pending] at hy
    by_cases hc : decide (r ≥ cfg.lock_distance) ≠ (st.device_is_present.lookup d).getD true
    · rw [if_pos hc] at hx hy
      by_cases hv : decide (r ≥ cfg.lock_distance) = true
      · simp only [hv, if_true] at hx hy
        exact timerInv_came_back d st h x hx hy
      · have hv' : decide (r ≥ cfg.lock_distance) = false := Bool.eq_false_iff.mpr hv
        simp only [hv', Bool.false_eq_true, if_false] at hx hy
        exact timerInv_left d st h x hx hy
    · rw [if_neg hc] at hx hy
      exact h x hx hy

/-- A whole scan pass over a list of devices preserves the timer
invariant. -/
theorem timerInv_scan (cfg : Config) (samples : List (String × Option Int)) :
    ∀ st : MonitorState, TimerInv st →
      TimerInv (samples.foldl (fun s p => BlueProximityV2.handle_device_proximity cfg p.1 p.2 s) st) := by
  induction samples with
  | nil => intro st h; exact h
  | cons p rest ih => intro st h; exact ih _ (timerInv_handle cfg p.1 p.2 st h)

/-- Every atomic event of the interleaved semantics preserves the
timer invariant. -/
theorem timerInv_step (cfg : Config) (env : Env) (e : BlueProximityV2.Event)
    (st : MonitorState) (h : TimerInv st) : TimerInv (BlueProximityV2.step cfg env e st) := by
  cases e with
  | tick samples =>
    by_cases hr : st.running
    · simpa [BlueProximityV2.step, hr] using timerInv_scan cfg samples st h
    · simpa [BlueProximityV2.step, hr] using h
  | fire_lock_timer d =>
    by_cases hp : st.lock_pending.contains d
    · intro x hx hy
      simp only [BlueProximityV2.step, hp, if_true] at hx hy
      rw [(lock_action_preserves_pending env _).1] at hx
      rw [(lock_action_preserves_pending env _).2] at hy
      simp only [List.mem_filter, bne_iff_ne] at hx
      exact h x hx.1 hy
    · have hp' : st.lock_pending.contains d = false := Bool.eq_false_iff.mpr hp
      simp only [BlueProximityV2.step]
      rw [hp']
      exact h
  | fire_unlock_timer d =>
    by_cases hp : st.unlock_pending.contains d
    · intro x hx hy
      simp only [BlueProximityV2.step, hp, if_true] at hx hy
      rw [(unlock_action_preserves_pending env _).1] at hx
      rw [(unlock_action_preserves_pending env _).2] at hy
      simp only [List.mem_filter, bne_iff_ne] at hy
      exact h x hx hy.1
    · have hp' : st.unlock_pending.contains d = false := Bool.eq_false_iff.mpr hp
      simp only [BlueProximityV2.step]
      rw [hp']
      exact h
  | shutdown =>
    intro x hx
    simp [BlueProximityV2.step] at hx

/-- Any event sequence preserves the timer invariant. -/
theorem timerInv_runEvents (cfg : Config) (env : Env) (evs : List BlueProximityV2.Event) :
    ∀ st : MonitorState, TimerInv st → TimerInv (BlueProximityV2.runEvents cfg env evs st) := by
  induction evs with
  | nil => intro st h; exact h
  | cons e es ih => intro st h; exact ih _ (timerInv_step cfg env e st h)

/-- A stopped state with no pending timers is a fixed point of every
event: ticks scan nothing, firings find no pending timer, a repeated
shutdown changes nothing. -/
theorem step_stopped (cfg : Config) (env : Env) (e : BlueProximityV2.Event)
    (st : MonitorState) (h1 : st.running = false) (h2 : st.lock_pending = [])
    (h3 : st.unlock_pending = []) : BlueProximityV2.step cfg env e st = st := by
  cases e with
  | tick samples => simp [BlueProximityV2.step, h1]
  | fire_lock_timer d => simp [BlueProximityV2.step, h2]
  | fire_unlock_timer d => simp [BlueProximityV2.step, h3]
  | shutdown =>
    cases st with
    | mk dip lp up fl rn => simp_all [BlueProximityV2.step]

/-- A stopped state with no pending timers is unchanged by any whole
event sequence. -/
theorem runEvents_stopped (cfg : Config) (env : Env) (evs : List BlueProximityV2.Event)
    (st : MonitorState) (h1 : st.running = false) (h2 : st.lock_pending = [])
    (h3 : st.unlock_pending = []) : BlueProximityV2.runEvents cfg env evs st = st := by
  induction evs with
  | nil => rfl
  | cons e es ih =>
    simp [BlueProximityV2.runEvents, step_stopped cfg env e st h1 h2 h3, ih]

/-- After an observe step on an obtained sample, the recorded flag of
that device equals the instantaneous test sample >= lock_distance. -/
theorem recordedFlag_handle (cfg : Config) (d : String) (r : Int) (st : MonitorState) :
    BlueProximityV2.recordedFlag (BlueProximityV2.handle_device_proximity cfg d (some r) st) d
      = decide (r ≥ cfg.lock_distance) := by
  simp [BlueProximityV2.recordedFlag, BlueProximityV2.handle_device_proximity, lookup_setAssoc]

/-- In the custom variant, an observe step records the flag the code
computes on line 136: false on a missing reading, otherwise the
instantaneous test. -/
theorem custom_lookup_handle (cfg : Config) (d : String) (s : Option Int) (st : MonitorState) :
    ((CustomBlueProximity.handle_device_proximity cfg d s st).device_is_present).lookup d
      = some (match s with
              | none => false
              | some r => decide (r ≥ cfg.lock_distance)) := by
  cases s <;>
    simp [CustomBlueProximity.handle_device_proximity, lookup_setAssoc]

/-- An observe step never touches the screen_locked_by_script flag. -/
theorem screen_flag_handle (cfg : Config) (d : String) (s : Option Int) (st : MonitorState) :
    (BlueProximityV2.handle_device_proximity cfg d s st).screen_locked_by_script
      = st.screen_locked_by_script := by
  cases s with
  | none => rfl
  | some r =>
    simp [BlueProximityV2.handle_device_proximity,
      apply_ite MonitorState.screen_locked_by_script,
      start_lock_timer, start_unlock_timer, cancel_timer]

/-- C1.  When a confirmed-away (lock) timer fires, the lock routine is
invoked exactly when every tracked device is flagged absent, and if
any device is present the firing changes nothing at all; when a
confirmed-present (unlock) timer fires, the D-Bus unlock call is
attempted exactly when at least one device is flagged present, the
screen is currently reported locked, and it was locked by this
script. -/
theorem timer_firing_lock_unlock_iff (env : Env) (st : MonitorState) :
    ((lock_action env st).2 = true ↔ anyPresent st = false)
    ∧ ((unlock_action env st).2 = true ↔
        (anyPresent st = true ∧ is_screen_locked env = true
          ∧ st.screen_locked_by_script = true))
    ∧ (anyPresent st = true → lock_action env st = (st, false)) := by
  cases hp : anyPresent st <;> cases hl : is_screen_locked env <;>
    cases hs : st.screen_locked_by_script <;> cases hu : env.unlockOk <;>
    simp [lock_action, unlock_action, unlock_screen, hp, hl, hs, hu]

/-- Witness for C1 at a concrete state with one present device: the
lock firing takes no action. -/
theorem timer_firing_lock_unlock_iff_witness :
    anyPresent ⟨[("iPhone", true)], [], [], true, true⟩ = true
    ∧ lock_action ⟨some true, true, true⟩ ⟨[("iPhone", true)], [], [], true, true⟩
        = (⟨[("iPhone", true)], [], [], true, true⟩, false) :=
  ⟨by decide,
   (timer_firing_lock_unlock_iff ⟨some true, true, true⟩
      ⟨[("iPhone", true)], [], [], true, true⟩).2.2 (by decide)⟩

/-- C2 (amended).  In blueproximity-v2.py a missing RSSI reading makes
handle_device_proximity a complete no-op, while in
custom-blueproximity.py a missing reading is treated as an absent
device and the flag is recorded as false. -/
theorem missing_sample_behavior (cfg : Config) (d : String) (st : MonitorState) :
    BlueProximityV2.handle_device_proximity cfg d none st = st
    ∧ ((CustomBlueProximity.handle_device_proximity cfg d none st).device_is_present).lookup d
        = some false :=
  ⟨rfl, custom_lookup_handle cfg d none st⟩

/-- Counterexample to C2 as stated: in custom-blueproximity.py a
missing reading for a device flagged present flips the recorded flag
to absent and arms a lock timer, so the observe step is not a no-op
in that source variant. -/
theorem missing_sample_counterexample :
    (CustomBlueProximity.handle_device_proximity CONFIG_custom "iPhone" none
        ⟨[("iPhone", true)], [], [], false, true⟩).device_is_present = [("iPhone", false)]
    ∧ (CustomBlueProximity.handle_device_proximity CONFIG_custom "iPhone" none
        ⟨[("iPhone", true)], [], [], false, true⟩).lock_pending = ["iPhone"]
    ∧ (⟨[("iPhone", true)], [], [], false, true⟩ : MonitorState).device_is_present
        = [("iPhone", true)]
    ∧ (⟨[("iPhone", true)], [], [], false, true⟩ : MonitorState).lock_pending = [] := by
  decide

/-- C3.  Along any sequence of obtained samples for one device, in
both tracker variants, the recorded presence flag changes at a sample
index only when the instantaneous test sample >= lock_distance
differs from the flag recorded before that sample, and a sample whose
test equals the recorded flag leaves the flag unchanged.  For the
blueproximity-v2.py tracker the recorded flag is read with its
default-true convention (line 161); for the custom-blueproximity.py
tracker the recorded value is the dictionary entry itself (none
before the first observation, in which case line 139 takes the
current test as the previous flag, so the first sample never records
a change of value). -/
theorem flag_changes_only_on_test_change (cfg : Config) (d : String) (rs : List Int)
    (st : MonitorState) (i : Nat) (h : i < rs.length) :
    (BlueProximityV2.recordedFlag
        (BlueProximityV2.handle_device_proximity cfg d (some (rs.get ⟨i, h⟩))
          (BlueProximityV2.observeSeq cfg d (rs.take i) st)) d
      ≠ BlueProximityV2.recordedFlag (BlueProximityV2.observeSeq cfg d (rs.take i) st) d
      → decide (rs.get ⟨i, h⟩ ≥ cfg.lock_distance)
          ≠ BlueProximityV2.recordedFlag (BlueProximityV2.observeSeq cfg d (rs.take i) st) d)
    ∧ (decide (rs.get ⟨i, h⟩ ≥ cfg.lock_distance)
          = BlueProximityV2.recordedFlag (BlueProximityV2.observeSeq cfg d (rs.take i) st) d
      → BlueProximityV2.recordedFlag
          (BlueProximityV2.handle_device_proximity cfg d (some (rs.get ⟨i, h⟩))
            (BlueProximityV2.observeSeq cfg d (rs.take i) st)) d
        = BlueProximityV2.recordedFlag (BlueProximityV2.observeSeq cfg d (rs.take i) st) d)
    ∧ (((CustomBlueProximity.handle_device_proximity cfg d (some (rs.get ⟨i, h⟩))
          (CustomBlueProximity.observeSeq cfg d (rs.take i) st)).device_is_present).lookup d
        ≠ ((CustomBlueProximity.observeSeq cfg d (rs.take i) st).device_is_present).lookup d
      → some (decide (rs.get ⟨i, h⟩ ≥ cfg.lock_distance))
          ≠ ((CustomBlueProximity.observeSeq cfg d (rs.take i) st).device_is_present).lookup d)
    ∧ (some (decide (rs.get ⟨i, h⟩ ≥ cfg.lock_distance))
          = ((CustomBlueProximity.observeSeq cfg d (rs.take i) st).device_is_present).lookup d
      → ((CustomBlueProximity.handle_device_proximity cfg d (some (rs.get ⟨i, h⟩))
            (CustomBlueProximity.observeSeq cfg d (rs.take i) st)).device_is_present).lookup d
        = ((CustomBlueProximity.observeSeq cfg d (rs.take i) st).device_is_present).lookup d) := by
  have hpost : ((CustomBlueProximity.handle_device_proximity cfg d (some (rs.get ⟨i, h⟩))
      (CustomBlueProximity.observeSeq cfg d (rs.take i) st)).device_is_present).lookup d
      = some (decide (rs.get ⟨i, h⟩ ≥ cfg.lock_distance)) :=
    custom_lookup_handle cfg d (some (rs.get ⟨i, h⟩))
      (CustomBlueProximity.observeSeq cfg d (rs.take i) st)
  rw [recordedFlag_handle, hpost]
  exact ⟨fun hne => hne, fun he => he, fun hne => hne, fun he => he⟩

/-- Witness for C3: the very first sample of a weak reading flips the
default-present flag, and indeed its instantaneous test differs from
the flag recorded before it. -/
theorem flag_changes_only_on_test_change_witness :
    0 < ([(-20 : Int)]).length
    ∧ decide ((-20 : Int) ≥ CONFIG_v2.lock_distance)
        ≠ BlueProximityV2.recordedFlag
            (BlueProximityV2.observeSeq CONFIG_v2 "iPhone" (([(-20 : Int)]).take 0) init_state)
            "iPhone" := by
  refine ⟨by decide, ?_⟩
  exact (flag_changes_only_on_test_change CONFIG_v2 "iPhone" [(-20 : Int)] init_state 0
    (by decide)).1 (by decide)

/-- C4.  From the initial state, along any interleaving of scan ticks,
timer firings and shutdowns, no device ever has both a pending lock
timer and a pending unlock timer; and arming a timer for a (device,
direction) key first cancels any prior pending timer for that key,
leaving exactly one pending instance. -/
theorem one_pending_timer_per_device (cfg : Config) (env : Env)
    (evs : List BlueProximityV2.Event) :
    (∀ x : String,
        x ∈ (BlueProximityV2.runEvents cfg env evs init_state).lock_pending →
        x ∉ (BlueProximityV2.runEvents cfg env evs init_state).unlock_pending)
    ∧ (∀ (d : String) (st : MonitorState),
        (start_lock_timer d st).lock_pending.count d = 1
        ∧ (start_unlock_timer d st).unlock_pending.count d = 1) := by
  constructor
  · exact timerInv_runEvents cfg env evs init_state timerInv_init
  · intro d st
    constructor
    · have hz : (st.lock_pending.filter (fun x => x != d)).count d = 0 := by
        rw [List.count_eq_zero]
        simp [List.mem_filter]
      simp [start_lock_timer, cancel_timer, hz]
    · have hz : (st.unlock_pending.filter (fun x => x != d)).count d = 0 := by
        rw [List.count_eq_zero]
        simp [List.mem_filter]
      simp [start_unlock_timer, cancel_timer, hz]

/-- Witness for C4: after one scan tick that sees a weak reading, the
device has a pending lock timer and no pending unlock timer. -/
theorem one_pending_timer_per_device_witness :
    "iPhone" ∈ (BlueProximityV2.runEvents CONFIG_v2 ⟨some false, true, true⟩
        [BlueProximityV2.Event.tick [("iPhone", some (-20))]] init_state).lock_pending
    ∧ "iPhone" ∉ (BlueProximityV2.runEvents CONFIG_v2 ⟨some false, true, true⟩
        [BlueProximityV2.Event.tick [("iPhone", some (-20))]] init_state).unlock_pending :=
  ⟨by decide,
   (one_pending_timer_per_device CONFIG_v2 ⟨some false, true, true⟩
      [BlueProximityV2.Event.tick [("iPhone", some (-20))]]).1 "iPhone" (by decide)⟩

/-- C5 (amended).  In both monitor variants the recorded instantaneous
presence decision on an obtained sample equals sample >= lock_distance
and the unlock_distance value plays no role in the observe step; in
main.py, by contrast, the per-sample decision uses UNLOCK_THRESHOLD
(see the counterexample). -/
theorem instantaneous_test_uses_lock_threshold (cfg : Config) (d : String) (r : Int)
    (st : MonitorState) (u : Int) :
    BlueProximityV2.recordedFlag
        (BlueProximityV2.handle_device_proximity cfg d (some r) st) d
      = decide (r ≥ cfg.lock_distance)
    ∧ ((CustomBlueProximity.handle_device_proximity cfg d (some r) st).device_is_present).lookup d
        = some (decide (r ≥ cfg.lock_distance))
    ∧ BlueProximityV2.handle_device_proximity { cfg with unlock_distance := u } d (some r) st
        = BlueProximityV2.handle_device_proximity cfg d (some r) st
    ∧ CustomBlueProximity.handle_device_proximity { cfg with unlock_distance := u } d (some r) st
        = CustomBlueProximity.handle_device_proximity cfg d (some r) st := by
  refine ⟨recordedFlag_handle cfg d r st, custom_lookup_handle cfg d (some r) st, ?_, ?_⟩ <;>
    cases cfg <;> rfl

/-- Counterexample to C5 as stated over all three sources: in main.py
the decision taken on a sample of the tracked device while the screen
is locked is rssi > UNLOCK_THRESHOLD, which at RSSI -65 disagrees with
the test sample >= LOCK_THRESHOLD, so there the unlock threshold does
drive the per-sample decision. -/
theorem unlock_threshold_used_in_main :
    MainPy.detection_attempts_unlock (-65) true true = false
    ∧ decide ((-65 : Int) ≥ MainPy.LOCK_THRESHOLD) = true
    ∧ decide ((-65 : Int) > MainPy.UNLOCK_THRESHOLD) = false := by
  decide

/-- Counterexample to C6: a configuration whose unlock_distance is not
above its lock_distance still passes validate_configuration and run
enters the scan loop, so no unlockThreshold > lockThreshold check
exists. -/
theorem threshold_not_validated :
    validate_configuration ⟨[("iPhone", "AA:BB:CC:DD:EE:FF")], -30, -10, 5, 15, 5⟩ = true
    ∧ BlueProximityV2.run_enters_scan_loop
        ⟨[("iPhone", "AA:BB:CC:DD:EE:FF")], -30, -10, 5, 15, 5⟩ = true
    ∧ (⟨[("iPhone", "AA:BB:CC:DD:EE:FF")], -30, -10, 5, 15, 5⟩ : Config).unlock_distance
        ≤ (⟨[("iPhone", "AA:BB:CC:DD:EE:FF")], -30, -10, 5, 15, 5⟩ : Config).lock_distance := by
  decide

/-- C6 (amended).  Startup validation examines only the device
mapping: it is insensitive to the threshold values, and it rejects a
configuration exactly when the mapping is empty or every address is a
placeholder. -/
theorem validation_checks_only_devices (cfg : Config) (u l : Int) :
    validate_configuration { cfg with unlock_distance := u, lock_distance := l }
      = validate_configuration cfg
    ∧ (validate_configuration cfg = false ↔
        (cfg.devices.isEmpty = true
          ∨ cfg.devices.all
              (fun p => p.2 = "XX:XX:XX:XX:XX:XX" || p.2 = "YY:YY:YY:YY:YY:YY") = true)) := by
  constructor
  · cases cfg
    rfl
  · cases hb1 : cfg.devices.isEmpty <;>
      cases hb2 : cfg.devices.all
        (fun p => p.2 = "XX:XX:XX:XX:XX:XX" || p.2 = "YY:YY:YY:YY:YY:YY") <;>
      simp [validate_configuration, hb1, hb2]

/-- Witness for C6 (amended) at the shipped configuration: changing
both thresholds to 0 does not change the validation outcome. -/
theorem validation_checks_only_devices_witness :
    validate_configuration { CONFIG_v2 with unlock_distance := 0, lock_distance := 0 }
      = validate_configuration CONFIG_v2 :=
  (validation_checks_only_devices CONFIG_v2 0 0).1

/-- Counterexample to C7: with an empty device mapping the process
never enters the scan loop, but the exit code is 0 (run returns
normally and the script ends), not a non-zero code. -/
theorem config_failure_exit_code_zero :
    validate_configuration ⟨[], -10, -15, 5, 15, 5⟩ = false
    ∧ BlueProximityV2.run_enters_scan_loop ⟨[], -10, -15, 5, 15, 5⟩ = false
    ∧ BlueProximityV2.script_exit_code .config_invalid = 0 := by
  decide

/-- C7 (amended).  An invalid configuration keeps the process out of
the scan loop, but the process then terminates with exit code 0, the
same code a signal-triggered shutdown uses. -/
theorem invalid_config_stops_before_loop (cfg : Config)
    (h : validate_configuration cfg = false) :
    BlueProximityV2.run_enters_scan_loop cfg = false
    ∧ BlueProximityV2.script_exit_code .config_invalid = 0
    ∧ BlueProximityV2.script_exit_code .signal_received = 0 :=
  ⟨h, rfl, rfl⟩

/-- Witness for C7 (amended) at the empty configuration. -/
theorem invalid_config_stops_before_loop_witness :
    validate_configuration ⟨[], -10, -15, 5, 15, 5⟩ = false
    ∧ BlueProximityV2.run_enters_scan_loop ⟨[], -10, -15, 5, 15, 5⟩ = false :=
  ⟨by decide,
   (invalid_config_stops_before_loop ⟨[], -10, -15, 5, 15, 5⟩ (by decide)).1⟩

/-- C8.  The shutdown handler cancels every pending timer and clears
the running flag, and the resulting stopped state is terminal: no
later event sequence (scan ticks, timer firings, repeated shutdowns)
changes the state, so no timer action fires and no device is scanned
after the cancellation completes. -/
theorem shutdown_cancels_and_stops (cfg : Config) (env : Env) (st : MonitorState)
    (evs : List BlueProximityV2.Event) :
    (BlueProximityV2.step cfg env .shutdown st).running = false
    ∧ (BlueProximityV2.step cfg env .shutdown st).lock_pending = []
    ∧ (BlueProximityV2.step cfg env .shutdown st).unlock_pending = []
    ∧ BlueProximityV2.runEvents cfg env evs (BlueProximityV2.step cfg env .shutdown st)
        = BlueProximityV2.step cfg env .shutdown st :=
  ⟨rfl, rfl, rfl, runEvents_stopped cfg env evs _ rfl rfl rfl⟩

/-- C9.  The screen_locked_by_script flag flips to true only through a
successful Lock call, flips to false only through a successful
SetActive call, a raising call leaves the whole state unchanged, and
the observe path never touches the flag. -/
theorem locked_by_script_flag_transitions (env : Env) (st : MonitorState) :
    ((lock_screen env st).1.screen_locked_by_script ≠ st.screen_locked_by_script →
      env.lockOk = true
      ∧ (lock_screen env st).1.screen_locked_by_script = true
      ∧ (lock_screen env st).2 = true)
    ∧ (env.lockOk = false → (lock_screen env st).1 = st)
    ∧ ((unlock_screen env st).1.screen_locked_by_script ≠ st.screen_locked_by_script →
      env.unlockOk = true
      ∧ (unlock_screen env st).1.screen_locked_by_script = false
      ∧ (unlock_screen env st).2 = true)
    ∧ (env.unlockOk = false → (unlock_screen env st).1 = st)
    ∧ (∀ (cfg : Config) (d : String) (s : Option Int),
        (BlueProximityV2.handle_device_proximity cfg d s st).screen_locked_by_script
          = st.screen_locked_by_script) := by
  refine ⟨?_, ?_, ?_, ?_, fun cfg d s => screen_flag_handle cfg d s st⟩ <;>
    cases hl : is_screen_locked env <;> cases hk : env.lockOk <;>
    cases hs : st.screen_locked_by_script <;> cases hu : env.unlockOk <;>
    simp [lock_screen, unlock_screen, hl, hk, hs, hu]

/-- Witness for C9: from an unlocked screen and a clear flag, a
successful Lock call flips the flag. -/
theorem locked_by_script_flag_transitions_witness :
    (lock_screen ⟨some false, true, true⟩ ⟨[], [], [], false, true⟩).1.screen_locked_by_script
        ≠ (⟨[], [], [], false, true⟩ : MonitorState).screen_locked_by_script
    ∧ (⟨some false, true, true⟩ : Env).lockOk = true :=
  ⟨by decide,
   ((locked_by_script_flag_transitions ⟨some false, true, true⟩
      ⟨[], [], [], false, true⟩).1 (by decide)).1⟩

/-- C10.  The RSSI query is total at the component boundary: a raising
subprocess call, a nonzero exit code, output without the marker, and
an unparsable integer all yield the no-reading result, and every
outcome yields either none or an integer reading. -/
theorem rssi_query_total (rc : Int) (out : String) :
    get_device_rssi .raised = none
    ∧ (rc ≠ 0 → get_device_rssi (.completed rc out) = none)
    ∧ (containsMarker "RSSI return value:" out = false →
        get_device_rssi (.completed rc out) = none)
    ∧ (pyInt ((out.splitOn ":").getLastD "").trim = none →
        get_device_rssi (.completed rc out) = none)
    ∧ (get_device_rssi (.completed rc out) = none
        ∨ ∃ n : Int, get_device_rssi (.completed rc out) = some n) := by
  refine ⟨rfl, ?_, ?_, ?_, ?_⟩
  · intro h
    simp [get_device_rssi, h]
  · intro h
    simp [get_device_rssi, h]
  · intro h
    rw [List.getLastD_eq_getLast?] at h
    cases h1 : decide (rc = 0) <;> cases h2 : containsMarker "RSSI return value:" out <;>
      simp [get_device_rssi, h1, h2, h]
  · cases hcase : get_device_rssi (.completed rc out) with
    | none => exact Or.inl rfl
    | some n => exact Or.inr ⟨n, rfl⟩

/-- Witness for C10 at a failed hcitool run: exit code 1 yields no
reading. -/
theorem rssi_query_total_witness :
    (1 : Int) ≠ 0 ∧ get_device_rssi (.completed 1 "") = none :=
  ⟨by decide, (rssi_query_total 1 "").2.1 (by decide)⟩
